import Mathlib

/-!
Shallow embedding of the inventory reconciliation engine of the
ESTOQUE_BACK_END repository (src/server.js).

The engine consists of the three movement routes of server.js:

* `POST /api/movimentacoes`        — `applyMovement`   (lines 310-377)
* `PATCH /api/movimentacoes/:id`   — `correctMovement` (lines 379-456)
* `DELETE /api/movimentacoes/:id`  — `reverseMovement` (lines 458-520)

The PostgreSQL state (tables `produtos` and `movimentacoes`) is embedded
as explicit lists of records; each route becomes a pure function from a
database state and a request to a new database state, an event trace
(transaction begin / notifier invocation / commit / rollback) and an
optional typed failure.  JavaScript `Number(x)` conversion of the
`quantidade` request field is modelled explicitly (an integer or NaN),
because the route validation `Number(quantidade) <= 0` lets NaN through.
-/

namespace Estoque

/-- Result of JavaScript `Number(x)` on a request field: an integer or NaN. -/
inductive JNum where
  | num (n : Int)
  | nan
deriving DecidableEq

/-- A JSON value arriving in the `quantidade` field of a request body.
`numStr n` stands for a nonempty decimal string parsing to `n` (such as
`"8"`), `nanStr` for a nonempty string that does not parse to a number
(such as `"abc"`). -/
inductive JVal where
  | undef
  | null
  | int (n : Int)
  | numStr (n : Int)
  | nanStr
deriving DecidableEq

/-- JavaScript truthiness of a `JVal` (`!x` in the route validations). -/
def JVal.truthy : JVal → Bool
  | .undef => false
  | .null => false
  | .int n => n != 0
  | .numStr _ => true
  | .nanStr => true

/-- JavaScript `Number(x)` applied to a `JVal`. -/
def JVal.toNumber : JVal → JNum
  | .undef => .nan
  | .null => .num 0
  | .int n => .num n
  | .numStr n => .num n
  | .nanStr => .nan

/-- The JavaScript comparison `Number(quantidade) <= 0` of the route
validations; `NaN <= 0` is `false` in JavaScript. -/
def jnumLeZero : JNum → Bool
  | .num n => decide (n ≤ 0)
  | .nan => false

/-- A row of the `produtos` table (only the columns the engine reads:
`id`, `quantidade`, `estoqueminimo`; `estoqueminimo` is a nullable
INTEGER column). -/
structure Produto where
  id : String
  quantidade : Int
  estoqueminimo : Option Int
deriving DecidableEq

/-- A row of the `movimentacoes` table. -/
structure Movimentacao where
  id : String
  produtoid : String
  tipo : String
  quantidade : Int
  motivo : Option String
deriving DecidableEq

/-- The database state seen by the engine. -/
structure DB where
  produtos : List Produto
  movimentacoes : List Movimentacao
deriving DecidableEq

/-- Observable events of one engine operation, in order of occurrence:
transaction begin, invocation of `sendLowStockEmail` (with the item id
and the quantity field of the snapshot passed), commit, rollback. -/
inductive Ev where
  | beginTx
  | notify (produtoId : String) (quantidade : Int)
  | commit
  | rollback
deriving DecidableEq

/-- The failure taxonomy of the engine, keyed by throw site:
pre-transaction validation failure (HTTP 400 before `pool.connect`),
missing row, the `ajuste` guard, and any storage error inside the unit
of work (caught, rolled back, reported as a transaction failure). -/
inductive ErrKind where
  | invalidInput
  | notFound
  | forbidden
  | txFailed
deriving DecidableEq

/-- Outcome of one engine operation: the database state after the
operation, the event trace, and `some k` when the operation failed. -/
structure OpResult where
  db : DB
  events : List Ev
  error : Option ErrKind
deriving DecidableEq

/-- `SELECT * FROM produtos WHERE id = $1` (first matching row). -/
def findProduto (db : DB) (id : String) : Option Produto :=
  db.produtos.find? (fun p => p.id == id)

/-- `SELECT * FROM movimentacoes WHERE id = $1` (first matching row). -/
def findMov (db : DB) (id : String) : Option Movimentacao :=
  db.movimentacoes.find? (fun m => m.id == id)

/-- Effect of `UPDATE produtos SET quantidade = $1 WHERE id = $3` on one row. -/
def updQ (id : String) (q : Int) (p : Produto) : Produto :=
  if p.id == id then { p with quantidade := q } else p

/-- `UPDATE produtos SET quantidade = $1 WHERE id = $3` on the table. -/
def setQuantidade (ps : List Produto) (id : String) (q : Int) : List Produto :=
  ps.map (updQ id q)

/-- Effect of `UPDATE movimentacoes SET quantidade = $1, motivo = $2 WHERE id = $3`
on one row. -/
def updMov (id : String) (q : Int) (motivo : Option String) (m : Movimentacao) :
    Movimentacao :=
  if m.id == id then { m with quantidade := q, motivo := motivo } else m

/-- `UPDATE movimentacoes SET quantidade = $1, motivo = $2 WHERE id = $3`. -/
def setMov (ms : List Movimentacao) (id : String) (q : Int)
    (motivo : Option String) : List Movimentacao :=
  ms.map (updMov id q motivo)

/-- `DELETE FROM movimentacoes WHERE id = $1`. -/
def delMov (ms : List Movimentacao) (id : String) : List Movimentacao :=
  ms.filter (fun m => m.id != id)

/-- The threshold condition shared by all three routes (server.js lines
337-341, 437-441, 499-503):
`estoqueminimo !== null && novaQuantidade <= estoqueminimo && novaQuantidade !== estoqueAnterior`. -/
def fireAlert (minimo : Option Int) (q1 q0 : Int) : Bool :=
  match minimo with
  | some m => decide (q1 ≤ m) && decide (q1 ≠ q0)
  | none => false

/-- The new item quantity computed by `POST /api/movimentacoes`
(server.js lines 328-335): `ajuste` sets the quantity, `entrada` adds the
magnitude, any other kind subtracts it; `Math.max(0, ·)` clamps at zero. -/
def novaQuantidade (tipo : String) (q0 m : Int) : Int :=
  max 0 (if tipo == "ajuste" then m else if tipo == "entrada" then q0 + m else q0 - m)

/-- Request body of `POST /api/movimentacoes`; a missing or empty (falsy)
`produtoId` or `tipo` is modelled as `""`. -/
structure MovReq where
  produtoId : String
  tipo : String
  quantidade : JVal
  motivo : Option String
deriving DecidableEq

/-- The pre-transaction validation of `POST /api/movimentacoes`
(server.js line 312):
`!produtoId || !tipo || !quantidade || Number(quantidade) <= 0`. -/
def validMovReq (r : MovReq) : Bool :=
  r.produtoId != "" && r.tipo != "" && r.quantidade.truthy &&
    !(jnumLeZero r.quantidade.toNumber)

/-- `POST /api/movimentacoes` (server.js lines 310-377).  `newId` is the
UUID produced by `uid()` for the inserted movement; `appendFails`
injects a storage-layer failure at the
`INSERT INTO movimentacoes` step (any such error is caught, the unit of
work is rolled back, and the route answers with a transaction failure).

When `Number(quantidade)` is NaN the computed quantity is NaN in every
branch (`NaN`, `q0 + NaN`, `q0 - NaN`), `Math.max(0, NaN)` is NaN, the
threshold condition `NaN <= estoqueminimo` is false (so no notification
fires), and the `UPDATE produtos SET quantidade = NaN` on the INTEGER
column fails, which rolls the unit of work back. -/
def applyMovement (db : DB) (r : MovReq) (newId : String) (appendFails : Bool) :
    OpResult :=
  if !(validMovReq r) then ⟨db, [], some .invalidInput⟩
  else
    match findProduto db r.produtoId with
    | none => ⟨db, [.beginTx, .rollback], some .notFound⟩
    | some produto =>
      match r.quantidade.toNumber with
      | .nan => ⟨db, [.beginTx, .rollback], some .txFailed⟩
      | .num m =>
        let q0 := produto.quantidade
        let q1 := novaQuantidade r.tipo q0 m
        let notifyEvs :=
          if fireAlert produto.estoqueminimo q1 q0 then [Ev.notify r.produtoId q1]
          else []
        if appendFails then
          ⟨db, .beginTx :: notifyEvs ++ [.rollback], some .txFailed⟩
        else
          ⟨⟨setQuantidade db.produtos r.produtoId q1,
            db.movimentacoes ++ [⟨newId, r.produtoId, r.tipo, m, r.motivo⟩]⟩,
           .beginTx :: notifyEvs ++ [.commit], none⟩

/-- Request body of `PATCH /api/movimentacoes/:id`. -/
structure CorrReq where
  quantidade : JVal
  motivo : Option String
deriving DecidableEq

/-- The pre-transaction validation of `PATCH /api/movimentacoes/:id`
(server.js line 383): `!quantidade || Number(quantidade) <= 0`. -/
def validCorrReq (r : CorrReq) : Bool :=
  r.quantidade.truthy && !(jnumLeZero r.quantidade.toNumber)

/-- `PATCH /api/movimentacoes/:id` (server.js lines 379-456).  The raw
`quantidade` is coerced to a number both by the JavaScript subtraction
`quantidade - movimentacaoAntiga.quantidade` and by the INTEGER column
of the movement UPDATE; a NaN coercion makes the computed stock
quantity NaN, so the item UPDATE fails and the unit of work rolls back
before the threshold check is reached. -/
def correctMovement (db : DB) (movId : String) (r : CorrReq) : OpResult :=
  if !(validCorrReq r) then ⟨db, [], some .invalidInput⟩
  else
    match findMov db movId with
    | none => ⟨db, [.beginTx, .rollback], some .notFound⟩
    | some movAntiga =>
      if movAntiga.tipo == "ajuste" then ⟨db, [.beginTx, .rollback], some .forbidden⟩
      else
        match findProduto db movAntiga.produtoid with
        | none => ⟨db, [.beginTx, .rollback], some .notFound⟩
        | some produto =>
          match r.quantidade.toNumber with
          | .nan => ⟨db, [.beginTx, .rollback], some .txFailed⟩
          | .num novaMag =>
            let q0 := produto.quantidade
            let diferenca := novaMag - movAntiga.quantidade
            let q1 :=
              max 0 (if movAntiga.tipo == "entrada" then q0 + diferenca
                     else q0 - diferenca)
            let notifyEvs :=
              if fireAlert produto.estoqueminimo q1 q0 then
                [Ev.notify movAntiga.produtoid q1]
              else []
            ⟨⟨setQuantidade db.produtos movAntiga.produtoid q1,
              setMov db.movimentacoes movId novaMag r.motivo⟩,
             .beginTx :: notifyEvs ++ [.commit], none⟩

/-- `DELETE /api/movimentacoes/:id` (server.js lines 458-520).  Reversing
a `saida` movement returns its magnitude, reversing an `entrada`
movement removes it, and any other kind (the `ajuste` guard) aborts the
unit of work. -/
def reverseMovement (db : DB) (movId : String) : OpResult :=
  match findMov db movId with
  | none => ⟨db, [.beginTx, .rollback], some .notFound⟩
  | some mov =>
    match findProduto db mov.produtoid with
    | none => ⟨db, [.beginTx, .rollback], some .notFound⟩
    | some produto =>
      let raw : Option Int :=
        if mov.tipo == "saida" then some (produto.quantidade + mov.quantidade)
        else if mov.tipo == "entrada" then some (produto.quantidade - mov.quantidade)
        else none
      match raw with
      | none => ⟨db, [.beginTx, .rollback], some .forbidden⟩
      | some nq =>
        let q1 := max 0 nq
        let notifyEvs :=
          if fireAlert produto.estoqueminimo q1 produto.quantidade then
            [Ev.notify mov.produtoid q1]
          else []
        ⟨⟨setQuantidade db.produtos mov.produtoid q1, delMov db.movimentacoes movId⟩,
         .beginTx :: notifyEvs ++ [.commit], none⟩

/-- One engine operation together with its request data. -/
inductive Op where
  | apply (r : MovReq) (newId : String) (appendFails : Bool)
  | correct (movId : String) (r : CorrReq)
  | reverse (movId : String)
deriving DecidableEq

/-- Dispatch one operation against a database state. -/
def runOp (db : DB) : Op → OpResult
  | .apply r newId af => applyMovement db r newId af
  | .correct movId r => correctMovement db movId r
  | .reverse movId => reverseMovement db movId

/-- Run a sequence of engine operations, threading the database state. -/
def runOps (db : DB) : List Op → DB
  | [] => db
  | o :: os => runOps (runOp db o).db os

/-- Every stored item quantity is non-negative. -/
def nonNegDB (db : DB) : Prop :=
  ∀ p ∈ db.produtos, 0 ≤ p.quantidade

instance : DecidablePred nonNegDB := fun db =>
  inferInstanceAs (Decidable (∀ p ∈ db.produtos, 0 ≤ p.quantidade))

/-! ## Helper lemmas -/

theorem updQ_id (j : String) (q : Int) (p : Produto) : (updQ j q p).id = p.id := by
  unfold updQ
  split <;> rfl

theorem nonNeg_setQuantidade (ps : List Produto)
    (h : ∀ p ∈ ps, 0 ≤ p.quantidade) (i : String) (q : Int) (hq : 0 ≤ q) :
    ∀ p ∈ setQuantidade ps i q, 0 ≤ p.quantidade := by
  intro p hp
  simp only [setQuantidade, List.mem_map] at hp
  obtain ⟨a, ha, rfl⟩ := hp
  unfold updQ
  split
  · exact hq
  · exact h a ha

theorem nonNeg_runOp (db : DB) (h : nonNegDB db) (o : Op) : nonNegDB (runOp db o).db := by
  cases o with
  | apply r newId af =>
    simp only [runOp, applyMovement]
    split
    · exact h
    · split
      · exact h
      · split
        · exact h
        · split
          · exact h
          · intro p hp
            exact nonNeg_setQuantidade db.produtos h _ _ (le_max_left 0 _) p hp
  | correct movId r =>
    simp only [runOp, correctMovement]
    split
    · exact h
    · split
      · exact h
      · split
        · exact h
        · split
          · exact h
          · split
            · exact h
            · intro p hp
              exact nonNeg_setQuantidade db.produtos h _ _ (le_max_left 0 _) p hp
  | reverse movId =>
    simp only [runOp, reverseMovement]
    split
    · exact h
    · split
      · exact h
      · split
        · exact h
        · intro p hp
          exact nonNeg_setQuantidade db.produtos h _ _ (le_max_left 0 _) p hp

theorem find?_setQuantidade (ps : List Produto) (j i : String) (q : Int) :
    (setQuantidade ps j q).find? (fun p => p.id == i) =
      (ps.find? (fun p => p.id == i)).map (updQ j q) := by
  induction ps with
  | nil => rfl
  | cons p ps ih =>
    by_cases h : (p.id == i) = true
    · rw [setQuantidade, List.map_cons, List.find?_cons_of_pos, List.find?_cons_of_pos]
      · rfl
      · exact h
      · simpa [updQ_id] using h
    · rw [setQuantidade, List.map_cons, List.find?_cons_of_neg, List.find?_cons_of_neg]
      · exact ih
      · exact h
      · simpa [updQ_id] using h

/-- Characterisation of a successful `POST /api/movimentacoes` run: with a
valid request, an existing item and a numeric magnitude, the route
commits the clamped new quantity and appends the movement. -/
theorem applyMovement_success (db : DB) (r : MovReq) (newId : String)
    (p : Produto) (m : Int)
    (hv : validMovReq r = true) (hp : findProduto db r.produtoId = some p)
    (hm : r.quantidade.toNumber = .num m) :
    applyMovement db r newId false =
      ⟨⟨setQuantidade db.produtos r.produtoId (novaQuantidade r.tipo p.quantidade m),
        db.movimentacoes ++ [⟨newId, r.produtoId, r.tipo, m, r.motivo⟩]⟩,
       .beginTx ::
         (if fireAlert p.estoqueminimo (novaQuantidade r.tipo p.quantidade m) p.quantidade
          then [Ev.notify r.produtoId (novaQuantidade r.tipo p.quantidade m)]
          else []) ++ [.commit],
       none⟩ := by
  simp only [applyMovement, hv, Bool.not_true, Bool.false_eq_true, if_false, hp, hm]

theorem findProduto_setQuantidade (ps : List Produto) (ms : List Movimentacao)
    (j i : String) (q : Int) :
    findProduto ⟨setQuantidade ps j q, ms⟩ i =
      (ps.find? (fun p => p.id == i)).map (updQ j q) :=
  find?_setQuantidade ps j i q

/-- Whether an event is an invocation of the threshold notifier. -/
def isNotify : Ev → Bool
  | .notify _ _ => true
  | _ => false

/-- Whether a trace contains an invocation of the threshold notifier. -/
def hasNotify (evs : List Ev) : Bool := evs.any isNotify

theorem hasNotify_commit_trace (b : Bool) (i : String) (q : Int) :
    hasNotify (.beginTx :: (if b then [Ev.notify i q] else []) ++ [.commit]) = b := by
  cases b <;> simp [hasNotify, isNotify]

theorem fireAlert_eq_true_iff (minimo : Option Int) (q1 q0 : Int) :
    fireAlert minimo q1 q0 = true ↔ ∃ m, minimo = some m ∧ q1 ≤ m ∧ q1 ≠ q0 := by
  cases minimo <;> simp [fireAlert]

/-- Characterisation of a successful `PATCH /api/movimentacoes/:id` run:
with a valid request, an existing non-`ajuste` movement, an existing
owning item and a numeric magnitude, the route recomputes the stock from
the magnitude difference and updates both rows in the same unit of work. -/
theorem correctMovement_success (db : DB) (movId : String) (r : CorrReq)
    (mov : Movimentacao) (p : Produto) (novaMag : Int)
    (hv : validCorrReq r = true) (hm : findMov db movId = some mov)
    (ha : (mov.tipo == "ajuste") = false) (hp : findProduto db mov.produtoid = some p)
    (hq : r.quantidade.toNumber = .num novaMag) :
    correctMovement db movId r =
      ⟨⟨setQuantidade db.produtos mov.produtoid
          (max 0 (if mov.tipo == "entrada" then p.quantidade + (novaMag - mov.quantidade)
                  else p.quantidade - (novaMag - mov.quantidade))),
        setMov db.movimentacoes movId novaMag r.motivo⟩,
       .beginTx ::
         (if fireAlert p.estoqueminimo
              (max 0 (if mov.tipo == "entrada" then p.quantidade + (novaMag - mov.quantidade)
                      else p.quantidade - (novaMag - mov.quantidade)))
              p.quantidade
          then [Ev.notify mov.produtoid
                  (max 0 (if mov.tipo == "entrada" then p.quantidade + (novaMag - mov.quantidade)
                          else p.quantidade - (novaMag - mov.quantidade)))]
          else []) ++ [.commit],
       none⟩ := by
  simp only [correctMovement, hv, Bool.not_true, Bool.false_eq_true, if_false, hm, ha,
    hp, hq]

/-- Characterisation of a successful `DELETE /api/movimentacoes/:id` run:
with an existing `saida` or `entrada` movement and an existing owning
item, the route applies the inverse quantity effect and deletes the
movement row in the same unit of work. -/
theorem reverseMovement_success (db : DB) (movId : String)
    (mov : Movimentacao) (p : Produto)
    (hm : findMov db movId = some mov) (hp : findProduto db mov.produtoid = some p)
    (hk : mov.tipo = "saida" ∨ mov.tipo = "entrada") :
    reverseMovement db movId =
      ⟨⟨setQuantidade db.produtos mov.produtoid
          (max 0 (if mov.tipo == "saida" then p.quantidade + mov.quantidade
                  else p.quantidade - mov.quantidade)),
        delMov db.movimentacoes movId⟩,
       .beginTx ::
         (if fireAlert p.estoqueminimo
              (max 0 (if mov.tipo == "saida" then p.quantidade + mov.quantidade
                      else p.quantidade - mov.quantidade))
              p.quantidade
          then [Ev.notify mov.produtoid
                  (max 0 (if mov.tipo == "saida" then p.quantidade + mov.quantidade
                          else p.quantidade - mov.quantidade))]
          else []) ++ [.commit],
       none⟩ := by
  rcases hk with hk | hk <;> simp only [reverseMovement, hm, hp, hk] <;> simp

theorem updMov_id (j : String) (q : Int) (mo : Option String) (m : Movimentacao) :
    (updMov j q mo m).id = m.id := by
  unfold updMov
  split <;> rfl

theorem find?_setMov (ms : List Movimentacao) (j i : String) (q : Int)
    (mo : Option String) :
    (setMov ms j q mo).find? (fun m => m.id == i) =
      (ms.find? (fun m => m.id == i)).map (updMov j q mo) := by
  induction ms with
  | nil => rfl
  | cons m ms ih =>
    by_cases h : (m.id == i) = true
    · rw [setMov, List.map_cons, List.find?_cons_of_pos, List.find?_cons_of_pos]
      · rfl
      · exact h
      · simpa [updMov_id] using h
    · rw [setMov, List.map_cons, List.find?_cons_of_neg, List.find?_cons_of_neg]
      · exact ih
      · exact h
      · simpa [updMov_id] using h

/-- Full description of a successful correction run: no error, the item
quantity recomputed from the magnitude difference (clamped at zero), and
the movement row updated to the new magnitude and reason, all in the one
committed unit of work. -/
theorem correctMovement_spec (db : DB) (movId : String) (r : CorrReq)
    (mov : Movimentacao) (p : Produto) (novaMag : Int)
    (hv : validCorrReq r = true) (hm : findMov db movId = some mov)
    (hk : mov.tipo = "entrada" ∨ mov.tipo = "saida")
    (hp : findProduto db mov.produtoid = some p)
    (hq : r.quantidade.toNumber = .num novaMag) :
    (correctMovement db movId r).error = none ∧
      findProduto (correctMovement db movId r).db mov.produtoid =
        some { p with
               quantidade :=
                 max 0 (if mov.tipo == "entrada"
                        then p.quantidade + (novaMag - mov.quantidade)
                        else p.quantidade - (novaMag - mov.quantidade)) } ∧
      findMov (correctMovement db movId r).db movId =
        some { mov with quantidade := novaMag, motivo := r.motivo } := by
  have ha : (mov.tipo == "ajuste") = false := by
    rcases hk with h | h <;> simp [h]
  have hp0 : db.produtos.find? (fun q => q.id == mov.produtoid) = some p := hp
  have hpid : p.id = mov.produtoid := by
    simpa using List.find?_some (p := fun q : Produto => q.id == mov.produtoid) hp0
  have hm0 : db.movimentacoes.find? (fun x => x.id == movId) = some mov := hm
  have hmid : mov.id = movId := by
    simpa using List.find?_some (p := fun x : Movimentacao => x.id == movId) hm0
  have h1 := correctMovement_success db movId r mov p novaMag hv hm ha hp hq
  refine ⟨by simp only [h1], ?_, ?_⟩
  · simp only [h1]
    rw [findProduto_setQuantidade, hp0]
    simp [updQ, hpid]
  · simp only [h1]
    show (setMov db.movimentacoes movId novaMag r.motivo).find? (fun x => x.id == movId) = _
    rw [find?_setMov, hm0]
    simp [updMov, hmid]

/-! ## Example database used by witnesses -/

/-- A small concrete database: two items and one recorded movement. -/
def exDb : DB :=
  ⟨[⟨"p1", 10, some 5⟩, ⟨"p2", 3, none⟩], [⟨"m1", "p1", "entrada", 4, none⟩]⟩

/-! ## Claims -/

/-- Claim C1: for every item and every sequence of engine operations
(applyMovement, correctMovement, reverseMovement), every stored item
quantity is non-negative after each operation: each operation clamps the
quantity it persists at zero, for all inputs and all prior
(non-negative) quantities. -/
theorem c1_clamp_invariant (db : DB) (h : nonNegDB db) (ops : List Op) :
    nonNegDB (runOps db ops) := by
  induction ops generalizing db with
  | nil => exact h
  | cons o os ih => exact ih _ (nonNeg_runOp db h o)

/-- Witness for C1 at a concrete database and a concrete operation
sequence containing all three operations (the outbound movement of 7 on
an item holding 3 exercises the clamp). -/
theorem c1_clamp_invariant_witness :
    nonNegDB exDb ∧
      nonNegDB (runOps exDb
        [.apply ⟨"p2", "saida", .int 7, none⟩ "m2" false,
         .correct "m1" ⟨.int 9, none⟩,
         .reverse "m1"]) :=
  ⟨by decide,
   c1_clamp_invariant exDb (by decide)
     [.apply ⟨"p2", "saida", .int 7, none⟩ "m2" false,
      .correct "m1" ⟨.int 9, none⟩,
      .reverse "m1"]⟩

/-- Claim C5: applyMovement with a valid request whose item identifier
does not exist fails with the NotFound failure, the unit of work is
rolled back, and no partial write is visible: the returned database is
the argument database unchanged. -/
theorem c5_apply_missing_item (db : DB) (r : MovReq) (newId : String) (af : Bool)
    (hv : validMovReq r = true) (hnf : findProduto db r.produtoId = none) :
    applyMovement db r newId af = ⟨db, [.beginTx, .rollback], some .notFound⟩ := by
  simp only [applyMovement, hv, Bool.not_true, Bool.false_eq_true, if_false, hnf]

/-- Witness for C5: a valid movement request against an identifier absent
from the concrete database. -/
theorem c5_apply_missing_item_witness :
    validMovReq ⟨"ghost", "entrada", .int 3, none⟩ = true ∧
      findProduto exDb "ghost" = none ∧
      applyMovement exDb ⟨"ghost", "entrada", .int 3, none⟩ "m9" false =
        ⟨exDb, [.beginTx, .rollback], some .notFound⟩ :=
  ⟨by decide, by decide,
   c5_apply_missing_item exDb ⟨"ghost", "entrada", .int 3, none⟩ "m9" false
     (by decide) (by decide)⟩

/-- Claim C10: a magnitude whose `Number` conversion is NaN (a
non-numeric string such as `"abc"`) passes the pre-transaction
validation of `POST /api/movimentacoes` (it is truthy and `NaN <= 0` is
false), so the route opens the unit of work, computes a NaN quantity,
and fails only with the storage-layer transaction failure after
rollback, the database unchanged. -/
theorem c10_nan_magnitude_reaches_transaction :
    validMovReq ⟨"p1", "entrada", .nanStr, none⟩ = true ∧
      applyMovement ⟨[⟨"p1", 10, some 5⟩], []⟩ ⟨"p1", "entrada", .nanStr, none⟩ "m1" false =
        ⟨⟨[⟨"p1", 10, some 5⟩], []⟩, [.beginTx, .rollback], some .txFailed⟩ := by
  decide

/-- Claim C9: on an item whose quantity q0 satisfies q0 >= n, an inbound
movement of magnitude n followed immediately by an outbound movement of
magnitude n restores the item record exactly (quantity back to q0). -/
theorem c9_inbound_then_outbound_restores (db : DB) (i id1 id2 : String)
    (p : Produto) (n : Int)
    (hi : i ≠ "") (hp : findProduto db i = some p) (hn : 0 < n)
    (hq : n ≤ p.quantidade) :
    findProduto
      (applyMovement (applyMovement db ⟨i, "entrada", .int n, none⟩ id1 false).db
        ⟨i, "saida", .int n, none⟩ id2 false).db i = some p := by
  have hp0 : db.produtos.find? (fun q => q.id == i) = some p := hp
  have hpid : p.id = i := by
    simpa using List.find?_some (p := fun q : Produto => q.id == i) hp0
  subst hpid
  have hv1 : validMovReq ⟨p.id, "entrada", .int n, none⟩ = true := by
    simp [validMovReq, JVal.truthy, JVal.toNumber, jnumLeZero, hi]
    omega
  have hv2 : validMovReq ⟨p.id, "saida", .int n, none⟩ = true := by
    simp [validMovReq, JVal.truthy, JVal.toNumber, jnumLeZero, hi]
    omega
  have n1 : novaQuantidade "entrada" p.quantidade n = p.quantidade + n := by
    simp [novaQuantidade]
    omega
  have h1 := applyMovement_success db ⟨p.id, "entrada", .int n, none⟩ id1 p n hv1 hp rfl
  have hfd1 : findProduto (applyMovement db ⟨p.id, "entrada", .int n, none⟩ id1 false).db p.id
      = some { p with quantidade := p.quantidade + n } := by
    simp only [h1]
    rw [findProduto_setQuantidade]
    rw [hp0]
    simp [updQ, n1]
  have n2 : novaQuantidade "saida" (p.quantidade + n) n = p.quantidade := by
    simp [novaQuantidade]
    omega
  have h2 := applyMovement_success
    (applyMovement db ⟨p.id, "entrada", .int n, none⟩ id1 false).db
    ⟨p.id, "saida", .int n, none⟩ id2 { p with quantidade := p.quantidade + n } n
    hv2 hfd1 rfl
  simp only [h2]
  rw [findProduto_setQuantidade]
  have hfd1' :
      ((applyMovement db ⟨p.id, "entrada", .int n, none⟩ id1 false).db).produtos.find?
        (fun q => q.id == p.id) = some { p with quantidade := p.quantidade + n } := hfd1
  rw [hfd1']
  simp [updQ, n2]

/-- Witness for C9 at a concrete item (quantity 10, n = 4). -/
theorem c9_inbound_then_outbound_restores_witness :
    findProduto
      (applyMovement (applyMovement exDb ⟨"p1", "entrada", .int 4, none⟩ "ma" false).db
        ⟨"p1", "saida", .int 4, none⟩ "mb" false).db "p1" = some ⟨"p1", 10, some 5⟩ :=
  c9_inbound_then_outbound_restores exDb "p1" "ma" "mb" ⟨"p1", 10, some 5⟩ 4
    (by decide) (by decide) (by decide) (by decide)

/-- Claim C4: in each movement operation (applyMovement, correctMovement,
reverseMovement) whose run computes a quantity transition q0 to q1, the
low-stock notifier is invoked if and only if the item's
minimum-threshold is set to some mi, q1 is at most mi, and q1 differs
from q0; in particular it is never invoked when the threshold is null or
when q1 equals q0. -/
theorem c4_notifier_iff_threshold :
    (∀ (db : DB) (r : MovReq) (newId : String) (p : Produto) (m : Int),
      validMovReq r = true → findProduto db r.produtoId = some p →
      r.quantidade.toNumber = .num m →
      (hasNotify (applyMovement db r newId false).events = true ↔
        ∃ mi, p.estoqueminimo = some mi ∧
          novaQuantidade r.tipo p.quantidade m ≤ mi ∧
          novaQuantidade r.tipo p.quantidade m ≠ p.quantidade)) ∧
    (∀ (db : DB) (movId : String) (r : CorrReq) (mov : Movimentacao)
        (p : Produto) (novaMag : Int),
      validCorrReq r = true → findMov db movId = some mov →
      (mov.tipo == "ajuste") = false → findProduto db mov.produtoid = some p →
      r.quantidade.toNumber = .num novaMag →
      (hasNotify (correctMovement db movId r).events = true ↔
        ∃ mi, p.estoqueminimo = some mi ∧
          max 0 (if mov.tipo == "entrada" then p.quantidade + (novaMag - mov.quantidade)
                 else p.quantidade - (novaMag - mov.quantidade)) ≤ mi ∧
          max 0 (if mov.tipo == "entrada" then p.quantidade + (novaMag - mov.quantidade)
                 else p.quantidade - (novaMag - mov.quantidade)) ≠ p.quantidade)) ∧
    (∀ (db : DB) (movId : String) (mov : Movimentacao) (p : Produto),
      findMov db movId = some mov → findProduto db mov.produtoid = some p →
      mov.tipo = "saida" ∨ mov.tipo = "entrada" →
      (hasNotify (reverseMovement db movId).events = true ↔
        ∃ mi, p.estoqueminimo = some mi ∧
          max 0 (if mov.tipo == "saida" then p.quantidade + mov.quantidade
                 else p.quantidade - mov.quantidade) ≤ mi ∧
          max 0 (if mov.tipo == "saida" then p.quantidade + mov.quantidade
                 else p.quantidade - mov.quantidade) ≠ p.quantidade)) := by
  refine ⟨?_, ?_, ?_⟩
  · intro db r newId p m hv hp hm
    rw [applyMovement_success db r newId p m hv hp hm]
    rw [show (⟨_, .beginTx ::
        (if fireAlert p.estoqueminimo (novaQuantidade r.tipo p.quantidade m) p.quantidade
         then [Ev.notify r.produtoId (novaQuantidade r.tipo p.quantidade m)]
         else []) ++ [.commit], none⟩ : OpResult).events =
      .beginTx ::
        (if fireAlert p.estoqueminimo (novaQuantidade r.tipo p.quantidade m) p.quantidade
         then [Ev.notify r.produtoId (novaQuantidade r.tipo p.quantidade m)]
         else []) ++ [.commit] from rfl]
    rw [hasNotify_commit_trace]
    exact fireAlert_eq_true_iff _ _ _
  · intro db movId r mov p novaMag hv hm ha hp hq
    rw [correctMovement_success db movId r mov p novaMag hv hm ha hp hq]
    rw [hasNotify_commit_trace]
    exact fireAlert_eq_true_iff _ _ _
  · intro db movId mov p hm hp hk
    rw [reverseMovement_success db movId mov p hm hp hk]
    rw [hasNotify_commit_trace]
    exact fireAlert_eq_true_iff _ _ _

/-- Witness for C4 at concrete runs of all three operations: an outbound
movement of 6 from quantity 10 with threshold 5 (the notifier fires), a
correction of the entrada-4 movement to magnitude 2 (quantity 8, above
the threshold: no notification), and a reversal of that movement
(quantity 6, above the threshold: no notification). -/
theorem c4_notifier_iff_threshold_witness :
    (hasNotify (applyMovement exDb ⟨"p1", "saida", .int 6, none⟩ "m2" false).events = true ↔
      ∃ mi, (some 5 : Option Int) = some mi ∧ (4 : Int) ≤ mi ∧ (4 : Int) ≠ 10) ∧
    (hasNotify (correctMovement exDb "m1" ⟨.int 2, none⟩).events = true ↔
      ∃ mi, (some 5 : Option Int) = some mi ∧ (8 : Int) ≤ mi ∧ (8 : Int) ≠ 10) ∧
    (hasNotify (reverseMovement exDb "m1").events = true ↔
      ∃ mi, (some 5 : Option Int) = some mi ∧ (6 : Int) ≤ mi ∧ (6 : Int) ≠ 10) :=
  ⟨c4_notifier_iff_threshold.1 exDb ⟨"p1", "saida", .int 6, none⟩ "m2"
      ⟨"p1", 10, some 5⟩ 6 (by decide) (by decide) rfl,
   c4_notifier_iff_threshold.2.1 exDb "m1" ⟨.int 2, none⟩
      ⟨"m1", "p1", "entrada", 4, none⟩ ⟨"p1", 10, some 5⟩ 2
      (by decide) (by decide) (by decide) (by decide) rfl,
   c4_notifier_iff_threshold.2.2 exDb "m1"
      ⟨"m1", "p1", "entrada", 4, none⟩ ⟨"p1", 10, some 5⟩
      (by decide) (by decide) (Or.inr rfl)⟩

/-- A concrete database whose movement log holds one ajuste movement. -/
def exDbAjd : DB := ⟨[⟨"p1", 10, none⟩], [⟨"m1", "p1", "ajuste", 7, none⟩]⟩

/-- Claim C7 counterexample: magnitude 0 is not accepted for an absolute
(ajuste) movement — the request is rejected by the pre-transaction
validation as invalid input with no state change and no unit of work,
contradicting the claim's assertion that n = 0 is among the accepted
absolute magnitudes. -/
theorem c7_zero_magnitude_rejected :
    applyMovement ⟨[⟨"p1", 10, none⟩], []⟩ ⟨"p1", "ajuste", .int 0, none⟩ "m1" false =
      ⟨⟨[⟨"p1", 10, none⟩], []⟩, [], some .invalidInput⟩ := by
  decide

/-- Claim C7 (amended): every accepted movement magnitude n is positive
(so n = 0 is never accepted); for every accepted n, applyMovement with
kind ajuste sets the item quantity to exactly max(0,n) regardless of the
prior quantity; and an ajuste movement can be neither corrected nor
reversed — both operations fail with the Forbidden failure, roll the
unit of work back, and leave the database unchanged. -/
theorem c7_absolute_sets_quantity :
    (∀ (r : MovReq) (n : Int),
      validMovReq r = true → r.quantidade.toNumber = .num n → 0 < n) ∧
    (∀ (db : DB) (r : MovReq) (newId : String) (p : Produto) (n : Int),
      validMovReq r = true → r.tipo = "ajuste" → findProduto db r.produtoId = some p →
      r.quantidade.toNumber = .num n →
      (applyMovement db r newId false).error = none ∧
        findProduto (applyMovement db r newId false).db r.produtoId =
          some { p with quantidade := max 0 n }) ∧
    (∀ (db : DB) (movId : String) (r : CorrReq) (mov : Movimentacao),
      validCorrReq r = true → findMov db movId = some mov → mov.tipo = "ajuste" →
      correctMovement db movId r = ⟨db, [.beginTx, .rollback], some .forbidden⟩) ∧
    (∀ (db : DB) (movId : String) (mov : Movimentacao) (p : Produto),
      findMov db movId = some mov → findProduto db mov.produtoid = some p →
      mov.tipo = "ajuste" →
      reverseMovement db movId = ⟨db, [.beginTx, .rollback], some .forbidden⟩) := by
  refine ⟨?_, ?_, ?_, ?_⟩
  · intro r n hv hm
    simp only [validMovReq, hm, jnumLeZero, Bool.and_eq_true, Bool.not_eq_true',
      decide_eq_false_iff_not] at hv
    exact lt_of_not_le (by tauto)
  · intro db r newId p n hv ht hp hm
    have hp0 : db.produtos.find? (fun q => q.id == r.produtoId) = some p := hp
    have hpid : p.id = r.produtoId := by
      simpa using List.find?_some (p := fun q : Produto => q.id == r.produtoId) hp0
    have h1 := applyMovement_success db r newId p n hv hp hm
    constructor
    · simp only [h1]
    · simp only [h1]
      rw [findProduto_setQuantidade, hp0]
      simp [updQ, hpid, novaQuantidade, ht]
  · intro db movId r mov hv hm ht
    simp only [correctMovement, hv, Bool.not_true, Bool.false_eq_true, if_false, hm, ht]
    simp
  · intro db movId mov p hm hp ht
    simp only [reverseMovement, hm, hp, ht]
    simp

/-- Witness for C7 at concrete inputs: an accepted ajuste magnitude 9 is
positive and resets the quantity from 10 to 9, and correcting or
reversing the stored ajuste movement is forbidden. -/
theorem c7_absolute_sets_quantity_witness :
    (0 : Int) < 9 ∧
      ((applyMovement exDbAjd ⟨"p1", "ajuste", .int 9, none⟩ "m2" false).error = none ∧
        findProduto (applyMovement exDbAjd ⟨"p1", "ajuste", .int 9, none⟩ "m2" false).db
          "p1" = some ⟨"p1", 9, none⟩) ∧
      correctMovement exDbAjd "m1" ⟨.int 3, none⟩ =
        ⟨exDbAjd, [.beginTx, .rollback], some .forbidden⟩ ∧
      reverseMovement exDbAjd "m1" =
        ⟨exDbAjd, [.beginTx, .rollback], some .forbidden⟩ :=
  ⟨c7_absolute_sets_quantity.1 ⟨"p1", "ajuste", .int 9, none⟩ 9 (by decide) rfl,
   c7_absolute_sets_quantity.2.1 exDbAjd ⟨"p1", "ajuste", .int 9, none⟩ "m2"
     ⟨"p1", 10, none⟩ 9 (by decide) rfl (by decide) rfl,
   c7_absolute_sets_quantity.2.2.1 exDbAjd "m1" ⟨.int 3, none⟩
     ⟨"m1", "p1", "ajuste", 7, none⟩ (by decide) (by decide) rfl,
   c7_absolute_sets_quantity.2.2.2 exDbAjd "m1" ⟨"m1", "p1", "ajuste", 7, none⟩
     ⟨"p1", 10, none⟩ (by decide) (by decide) rfl⟩

/-- A concrete database whose movement log holds one entrada movement of
magnitude 5, for the correction claims. -/
def exDbCorr : DB := ⟨[⟨"p1", 10, none⟩], [⟨"m1", "p1", "entrada", 5, none⟩]⟩

/-- Claim C8: correcting an inbound movement of recorded magnitude 5 to
magnitude 8 increases the item quantity by exactly 3; in general a
correction computes the difference between the new and the old
magnitude, adds it for an entrada movement and subtracts it for a saida
movement, clamps at zero, and persists the new item quantity together
with the movement's updated magnitude and reason in the same committed
unit of work. -/
theorem c8_correction_applies_delta :
    (∀ (db : DB) (movId : String) (mov : Movimentacao) (p : Produto),
      findMov db movId = some mov → mov.tipo = "entrada" → mov.quantidade = 5 →
      findProduto db mov.produtoid = some p → 0 ≤ p.quantidade →
      findProduto (correctMovement db movId ⟨.int 8, none⟩).db mov.produtoid =
        some { p with quantidade := p.quantidade + 3 }) ∧
    (∀ (db : DB) (movId : String) (r : CorrReq) (mov : Movimentacao) (p : Produto)
        (novaMag : Int),
      validCorrReq r = true → findMov db movId = some mov →
      (mov.tipo = "entrada" ∨ mov.tipo = "saida") →
      findProduto db mov.produtoid = some p → r.quantidade.toNumber = .num novaMag →
      (correctMovement db movId r).error = none ∧
        findProduto (correctMovement db movId r).db mov.produtoid =
          some { p with
                 quantidade :=
                   max 0 (if mov.tipo == "entrada"
                          then p.quantidade + (novaMag - mov.quantidade)
                          else p.quantidade - (novaMag - mov.quantidade)) } ∧
        findMov (correctMovement db movId r).db movId =
          some { mov with quantidade := novaMag, motivo := r.motivo }) := by
  constructor
  · intro db movId mov p hm ht h5 hp h0
    obtain ⟨-, h2, -⟩ :=
      correctMovement_spec db movId ⟨.int 8, none⟩ mov p 8 (by decide) hm
        (Or.inl ht) hp rfl
    rw [h2]
    have hx : max 0 (if mov.tipo == "entrada"
          then p.quantidade + (8 - mov.quantidade)
          else p.quantidade - (8 - mov.quantidade)) = p.quantidade + 3 := by
      rw [ht, h5]
      simp
      omega
    rw [hx]
  · intro db movId r mov p novaMag hv hm hk hp hq
    exact correctMovement_spec db movId r mov p novaMag hv hm hk hp hq

/-- Witness for C8: correcting the entrada-5 movement to magnitude 8 on
an item holding 10 yields quantity 13, and the general clause evaluated
at the same concrete run (with a new reason) updates both rows. -/
theorem c8_correction_applies_delta_witness :
    findProduto (correctMovement exDbCorr "m1" ⟨.int 8, none⟩).db "p1" =
        some ⟨"p1", 13, none⟩ ∧
      ((correctMovement exDbCorr "m1" ⟨.int 8, some "fix"⟩).error = none ∧
        findProduto (correctMovement exDbCorr "m1" ⟨.int 8, some "fix"⟩).db "p1" =
          some ⟨"p1", 13, none⟩ ∧
        findMov (correctMovement exDbCorr "m1" ⟨.int 8, some "fix"⟩).db "m1" =
          some ⟨"m1", "p1", "entrada", 8, some "fix"⟩) :=
  ⟨c8_correction_applies_delta.1 exDbCorr "m1" ⟨"m1", "p1", "entrada", 5, none⟩
     ⟨"p1", 10, none⟩ (by decide) rfl rfl (by decide) (by decide),
   c8_correction_applies_delta.2 exDbCorr "m1" ⟨.int 8, some "fix"⟩
     ⟨"m1", "p1", "entrada", 5, none⟩ ⟨"p1", 10, none⟩ 8
     (by decide) (by decide) (Or.inl rfl) (by decide) rfl⟩

/-- Claim C3: the engine violates the post-commit notification contract.
In this concrete run an outbound movement of 6 on an item with quantity
10 and threshold 5 passes the threshold check and invokes the notifier
with the speculative in-transaction snapshot (quantity 4) before the
movement insert; the insert then fails, the unit of work rolls back, and
the database is unchanged — yet the notifier was already invoked, and
the invocation precedes the rollback inside the transaction (it is never
after a successful commit). -/
theorem c3_notifier_fires_in_rolled_back_run :
    applyMovement ⟨[⟨"p1", 10, some 5⟩], []⟩ ⟨"p1", "saida", .int 6, none⟩ "m1" true =
      ⟨⟨[⟨"p1", 10, some 5⟩], []⟩, [.beginTx, .notify "p1" 4, .rollback],
       some .txFailed⟩ := by
  decide

/-- Claim C6 counterexample: a movement whose kind is not one of the
recognized kinds (here "transferencia") is not rejected as invalid
input: it passes validation, opens the unit of work, is processed as an
outbound movement (10 - 4 = 6), commits, and is recorded in the log with
the unrecognized kind. -/
theorem c6_unrecognized_kind_not_rejected :
    applyMovement ⟨[⟨"p1", 10, none⟩], []⟩ ⟨"p1", "transferencia", .int 4, none⟩
        "m1" false =
      ⟨⟨[⟨"p1", 6, none⟩], [⟨"m1", "p1", "transferencia", 4, none⟩]⟩,
       [.beginTx, .commit], none⟩ := by
  decide

/-- Claim C6 (amended): a request that fails the pre-transaction
validation — in particular any magnitude whose numeric value is at most
zero — is rejected with the InvalidInput failure before any unit of work
is opened and before any state is read or written (empty event trace,
database unchanged); the kind, however, is not validated: any accepted
request whose kind is neither entrada nor ajuste is processed as an
outbound movement. -/
theorem c6_invalid_input_before_transaction :
    (∀ (db : DB) (r : MovReq) (newId : String) (af : Bool),
      validMovReq r = false →
      applyMovement db r newId af = ⟨db, [], some .invalidInput⟩) ∧
    (∀ (r : MovReq) (n : Int),
      r.quantidade.toNumber = .num n → n ≤ 0 → validMovReq r = false) ∧
    (∀ (db : DB) (r : MovReq) (newId : String) (p : Produto) (m : Int),
      validMovReq r = true → findProduto db r.produtoId = some p →
      r.quantidade.toNumber = .num m → r.tipo ≠ "ajuste" → r.tipo ≠ "entrada" →
      (applyMovement db r newId false).error = none ∧
        findProduto (applyMovement db r newId false).db r.produtoId =
          some { p with quantidade := max 0 (p.quantidade - m) }) := by
  refine ⟨?_, ?_, ?_⟩
  · intro db r newId af h
    simp only [applyMovement, h, Bool.not_false, if_true]
  · intro r n hm hle
    have hd : decide (n ≤ 0) = true := decide_eq_true hle
    simp [validMovReq, hm, jnumLeZero, hd]
  · intro db r newId p m hv hp hm h1 h2
    have hp0 : db.produtos.find? (fun q => q.id == r.produtoId) = some p := hp
    have hpid : p.id = r.produtoId := by
      simpa using List.find?_some (p := fun q : Produto => q.id == r.produtoId) hp0
    have hAju : (r.tipo == "ajuste") = false := by simp [h1]
    have hEnt : (r.tipo == "entrada") = false := by simp [h2]
    have hs := applyMovement_success db r newId p m hv hp hm
    constructor
    · simp only [hs]
    · simp only [hs]
      rw [findProduto_setQuantidade, hp0]
      simp [updQ, hpid, novaQuantidade, hAju, hEnt]

/-- Witness for C6 at concrete inputs: a zero magnitude is rejected
before the transaction with no events, and an accepted request with the
unrecognized kind "transferencia" commits as an outbound movement. -/
theorem c6_invalid_input_before_transaction_witness :
    applyMovement exDb ⟨"p1", "entrada", .int 0, none⟩ "m3" false =
        ⟨exDb, [], some .invalidInput⟩ ∧
      validMovReq ⟨"p1", "saida", .int (-2), none⟩ = false ∧
      ((applyMovement exDb ⟨"p1", "transferencia", .int 4, none⟩ "m3" false).error =
          none ∧
        findProduto (applyMovement exDb ⟨"p1", "transferencia", .int 4, none⟩
            "m3" false).db "p1" = some ⟨"p1", 6, some 5⟩) :=
  ⟨c6_invalid_input_before_transaction.1 exDb ⟨"p1", "entrada", .int 0, none⟩ "m3"
     false (by decide),
   c6_invalid_input_before_transaction.2.1 ⟨"p1", "saida", .int (-2), none⟩ (-2)
     rfl (by decide),
   c6_invalid_input_before_transaction.2.2 exDb ⟨"p1", "transferencia", .int 4, none⟩
     "m3" ⟨"p1", 10, some 5⟩ 4 (by decide) (by decide) rfl (by decide) (by decide)⟩

/-- Modelled from the claim's wording (claim C2): the effect of one
committed movement on a running net — an inbound (entrada) movement adds
its magnitude, an outbound (saida) movement subtracts its magnitude, and
an absolute movement resets the net to its magnitude. -/
def movStep (acc : Int) (m : Movimentacao) : Int :=
  if m.tipo == "entrada" then acc + m.quantidade
  else if m.tipo == "saida" then acc - m.quantidade
  else m.quantidade

/-- Modelled from the claim's wording (claim C2): the net effect of a
list of committed movements, starting from the item's creation
quantity, with no clamping. -/
def netEffect (q0 : Int) (ms : List Movimentacao) : Int :=
  ms.foldl movStep q0

/-- The stepwise clamped net of a list of committed movements: the net
effect with the clamp at zero applied after each movement, as the engine
actually computes quantities. -/
def clampedNet (q0 : Int) (ms : List Movimentacao) : Int :=
  ms.foldl (fun acc m => max 0 (movStep acc m)) q0

/-- The committed movements of one item, in log order. -/
def movsFor (db : DB) (i : String) : List Movimentacao :=
  db.movimentacoes.filter (fun m => m.produtoid == i)

/-- Run a sequence of apply-movement requests (each with its fresh
movement id), threading the database state. -/
def runApplies (db : DB) : List (MovReq × String) → DB
  | [] => db
  | rq :: rest => runApplies (applyMovement db rq.1 rq.2 false).db rest

theorem clampedNet_cons (q : Int) (m : Movimentacao) (ms : List Movimentacao) :
    clampedNet q (m :: ms) = clampedNet (max 0 (movStep q m)) ms := rfl

theorem movStep_recognized (q0 mg : Int) (newId j tipo : String) (mo : Option String)
    (hk : tipo = "entrada" ∨ tipo = "saida" ∨ tipo = "ajuste") :
    max 0 (movStep q0 ⟨newId, j, tipo, mg, mo⟩) = novaQuantidade tipo q0 mg := by
  rcases hk with h | h | h <;> subst h <;> simp [movStep, novaQuantidade]

/-- An apply-movement call never removes log rows: it appends at most one. -/
theorem applyMovement_movs_append (db : DB) (r : MovReq) (newId : String) (af : Bool) :
    ∃ t, (applyMovement db r newId af).db.movimentacoes = db.movimentacoes ++ t := by
  unfold applyMovement
  split
  · exact ⟨[], by simp⟩
  · split
    · exact ⟨[], by simp⟩
    · split
      · exact ⟨[], by simp⟩
      · split
        · exact ⟨[], by simp⟩
        · exact ⟨_, rfl⟩

theorem runApplies_movs_append (reqs : List (MovReq × String)) :
    ∀ db : DB, ∃ t, (runApplies db reqs).movimentacoes = db.movimentacoes ++ t := by
  induction reqs with
  | nil => exact fun db => ⟨[], by simp [runApplies]⟩
  | cons rq rest ih =>
    intro db
    obtain ⟨u, hu⟩ := applyMovement_movs_append db rq.1 rq.2 false
    obtain ⟨t, ht⟩ := ih (applyMovement db rq.1 rq.2 false).db
    exact ⟨u ++ t, by rw [runApplies, ht, hu, List.append_assoc]⟩

/-- Case analysis of one apply-movement call: either the database is
unchanged (validation failure, missing item, NaN magnitude), or the run
committed, updating the item to the clamped new quantity and appending
the movement record. -/
theorem applyMovement_db_cases (db : DB) (r : MovReq) (newId : String) :
    (applyMovement db r newId false).db = db ∨
    ∃ p m, validMovReq r = true ∧ findProduto db r.produtoId = some p ∧
      r.quantidade.toNumber = .num m ∧
      (applyMovement db r newId false).db =
        ⟨setQuantidade db.produtos r.produtoId (novaQuantidade r.tipo p.quantidade m),
         db.movimentacoes ++ [⟨newId, r.produtoId, r.tipo, m, r.motivo⟩]⟩ := by
  by_cases hv : validMovReq r = true
  · cases hfp : findProduto db r.produtoId with
    | none =>
      left
      simp only [applyMovement, hv, Bool.not_true, Bool.false_eq_true, if_false, hfp]
    | some p =>
      cases hm : r.quantidade.toNumber with
      | nan =>
        left
        simp only [applyMovement, hv, Bool.not_true, Bool.false_eq_true, if_false,
          hfp, hm]
      | num m =>
        right
        exact ⟨p, m, hv, rfl, rfl,
          by simp only [applyMovement_success db r newId p m hv hfp hm]⟩
  · left
    have hv2 : validMovReq r = false := by simpa using hv
    simp only [applyMovement, hv2, Bool.not_false, if_true]

/-- Claim C2 counterexample: an item holding quantity 0 receives one
committed outbound movement of magnitude 5; the stored quantity is 0
(the silent clamp), but the net effect of its committed movements is -5,
so the stored quantity does not equal the net effect of all committed
movements. -/
theorem c2_clamp_breaks_net_effect :
    (applyMovement ⟨[⟨"p1", 0, none⟩], []⟩ ⟨"p1", "saida", .int 5, none⟩ "m1"
        false).error = none ∧
      findProduto (applyMovement ⟨[⟨"p1", 0, none⟩], []⟩ ⟨"p1", "saida", .int 5, none⟩
          "m1" false).db "p1" = some ⟨"p1", 0, none⟩ ∧
      netEffect 0 (movsFor (applyMovement ⟨[⟨"p1", 0, none⟩], []⟩
          ⟨"p1", "saida", .int 5, none⟩ "m1" false).db "p1") = -5 ∧
      ((findProduto (applyMovement ⟨[⟨"p1", 0, none⟩], []⟩
            ⟨"p1", "saida", .int 5, none⟩ "m1" false).db "p1").map
          Produto.quantidade ≠
        some (netEffect 0 (movsFor (applyMovement ⟨[⟨"p1", 0, none⟩], []⟩
            ⟨"p1", "saida", .int 5, none⟩ "m1" false).db "p1"))) := by
  decide

/-- Claim C2 (amended): for every item and every sequence of committed
apply-movement operations with recognized kinds, the stored quantity
equals the stepwise clamped net of the movements committed for that item
during the sequence (entrada adds, saida subtracts, ajuste resets, each
step floored at zero), starting from the item's quantity before the
sequence. -/
theorem c2_quantity_eq_clamped_net (reqs : List (MovReq × String)) :
    ∀ (db : DB) (i : String) (p : Produto),
      findProduto db i = some p →
      (∀ rq ∈ reqs,
        rq.1.tipo = "entrada" ∨ rq.1.tipo = "saida" ∨ rq.1.tipo = "ajuste") →
      findProduto (runApplies db reqs) i =
        some { p with
               quantidade :=
                 clampedNet p.quantidade
                   ((movsFor (runApplies db reqs) i).drop (movsFor db i).length) } := by
  induction reqs with
  | nil =>
    intro db i p hp _
    rw [runApplies, List.drop_length]
    exact hp
  | cons rq rest ih =>
    intro db i p hp hk
    have hk0 := hk rq (List.mem_cons_self rq rest)
    have hkr : ∀ x ∈ rest, x.1.tipo = "entrada" ∨ x.1.tipo = "saida" ∨
        x.1.tipo = "ajuste" := fun x hx => hk x (List.mem_cons_of_mem rq hx)
    rcases applyMovement_db_cases db rq.1 rq.2 with hsame | ⟨pf, m, hv, hfp, hm, hd⟩
    · rw [runApplies, hsame]
      exact ih db i p hp hkr
    · by_cases hij : i = rq.1.produtoId
      · rw [← hij] at hd hfp
        have hqp : p = pf := by
          rw [hp] at hfp
          exact Option.some.inj hfp
        subst hqp
        have hp0 : db.produtos.find? (fun x => x.id == i) = some p := hp
        have hpid : p.id = i := by
          simpa using List.find?_some (p := fun x : Produto => x.id == i) hp0
        rw [runApplies, hd]
        have hfd1 : findProduto
            (⟨setQuantidade db.produtos i (novaQuantidade rq.1.tipo p.quantidade m),
              db.movimentacoes ++ [(⟨rq.2, i, rq.1.tipo, m, rq.1.motivo⟩ : Movimentacao)]⟩ : DB) i =
            some { p with quantidade := novaQuantidade rq.1.tipo p.quantidade m } := by
          rw [findProduto_setQuantidade, hp0]
          simp [updQ, hpid]
        have hres := ih _ i _ hfd1 hkr
        rw [hres]
        obtain ⟨t, ht⟩ := runApplies_movs_append rest
          ⟨setQuantidade db.produtos i (novaQuantidade rq.1.tipo p.quantidade m),
           db.movimentacoes ++ [(⟨rq.2, i, rq.1.tipo, m, rq.1.motivo⟩ : Movimentacao)]⟩
        have hM : movsFor (runApplies
            ⟨setQuantidade db.produtos i (novaQuantidade rq.1.tipo p.quantidade m),
             db.movimentacoes ++ [(⟨rq.2, i, rq.1.tipo, m, rq.1.motivo⟩ : Movimentacao)]⟩ rest) i =
            movsFor db i ++ ([(⟨rq.2, i, rq.1.tipo, m, rq.1.motivo⟩ : Movimentacao)] ++
              t.filter (fun x => x.produtoid == i)) := by
          show (runApplies
              (⟨setQuantidade db.produtos i (novaQuantidade rq.1.tipo p.quantidade m),
                db.movimentacoes ++ [(⟨rq.2, i, rq.1.tipo, m, rq.1.motivo⟩ : Movimentacao)]⟩ : DB)
              rest).movimentacoes.filter (fun x => x.produtoid == i) =
            movsFor db i ++ ([(⟨rq.2, i, rq.1.tipo, m, rq.1.motivo⟩ : Movimentacao)] ++
              t.filter (fun x => x.produtoid == i))
          rw [ht]
          simp [movsFor, List.filter_append]
        have hM1 : movsFor
            (⟨setQuantidade db.produtos i (novaQuantidade rq.1.tipo p.quantidade m),
              db.movimentacoes ++ [(⟨rq.2, i, rq.1.tipo, m, rq.1.motivo⟩ : Movimentacao)]⟩ : DB) i =
            movsFor db i ++ [(⟨rq.2, i, rq.1.tipo, m, rq.1.motivo⟩ : Movimentacao)] := by
          simp [movsFor, List.filter_append]
        have eL : clampedNet (novaQuantidade rq.1.tipo p.quantidade m)
            ((movsFor db i ++ ([(⟨rq.2, i, rq.1.tipo, m, rq.1.motivo⟩ : Movimentacao)] ++
                t.filter (fun x => x.produtoid == i))).drop
              (movsFor db i ++ [(⟨rq.2, i, rq.1.tipo, m, rq.1.motivo⟩ : Movimentacao)]).length) =
            clampedNet (novaQuantidade rq.1.tipo p.quantidade m)
              (t.filter (fun x => x.produtoid == i)) := by
          rw [← List.append_assoc, List.drop_left]
        have eR : clampedNet p.quantidade
            ((movsFor db i ++ ([(⟨rq.2, i, rq.1.tipo, m, rq.1.motivo⟩ : Movimentacao)] ++
                t.filter (fun x => x.produtoid == i))).drop (movsFor db i).length) =
            clampedNet (novaQuantidade rq.1.tipo p.quantidade m)
              (t.filter (fun x => x.produtoid == i)) := by
          rw [List.drop_left]
          simp only [List.singleton_append]
          rw [clampedNet_cons, movStep_recognized _ _ _ _ _ _ hk0]
        rw [hM, hM1, eL, eR]
      · have hp0 : db.produtos.find? (fun x => x.id == i) = some p := hp
        have hpid : p.id = i := by
          simpa using List.find?_some (p := fun x : Produto => x.id == i) hp0
        rw [runApplies, hd]
        have hne : (p.id == rq.1.produtoId) = false := by
          rw [hpid]
          exact beq_eq_false_iff_ne.mpr hij
        have hne2 : (rq.1.produtoId == i) = false :=
          beq_eq_false_iff_ne.mpr (Ne.symm hij)
        have hfd1 : findProduto
            (⟨setQuantidade db.produtos rq.1.produtoId
                (novaQuantidade rq.1.tipo pf.quantidade m),
              db.movimentacoes ++
                [⟨rq.2, rq.1.produtoId, rq.1.tipo, m, rq.1.motivo⟩]⟩ : DB) i =
            some p := by
          rw [findProduto_setQuantidade, hp0]
          simp [updQ, hne]
        have hres := ih _ i _ hfd1 hkr
        rw [hres]
        have hM1 : movsFor
            (⟨setQuantidade db.produtos rq.1.produtoId
                (novaQuantidade rq.1.tipo pf.quantidade m),
              db.movimentacoes ++
                [⟨rq.2, rq.1.produtoId, rq.1.tipo, m, rq.1.motivo⟩]⟩ : DB) i =
            movsFor db i := by
          simp [movsFor, List.filter_append, hne2]
        rw [hM1]

/-- Witness for C2 (amended) at a concrete run: from quantity 0, an
entrada of 3 then a saida of 5 store quantity 0 (clamped), matching the
stepwise clamped net of the two committed movements; an ajuste on the
other item leaves the first item's clamped net unaffected. -/
theorem c2_quantity_eq_clamped_net_witness :
    findProduto
      (runApplies ⟨[⟨"p1", 0, none⟩, ⟨"p2", 7, none⟩], []⟩
        [(⟨"p1", "entrada", .int 3, none⟩, "a"), (⟨"p1", "saida", .int 5, none⟩, "b"),
         (⟨"p2", "ajuste", .int 1, none⟩, "c")]) "p1" =
      some { (⟨"p1", 0, none⟩ : Produto) with
             quantidade :=
               clampedNet 0
                 ((movsFor
                     (runApplies ⟨[⟨"p1", 0, none⟩, ⟨"p2", 7, none⟩], []⟩
                       [(⟨"p1", "entrada", .int 3, none⟩, "a"),
                        (⟨"p1", "saida", .int 5, none⟩, "b"),
                        (⟨"p2", "ajuste", .int 1, none⟩, "c")]) "p1").drop
                   (movsFor (⟨[⟨"p1", 0, none⟩, ⟨"p2", 7, none⟩], []⟩ : DB)
                     "p1").length) } :=
  c2_quantity_eq_clamped_net
    [(⟨"p1", "entrada", .int 3, none⟩, "a"), (⟨"p1", "saida", .int 5, none⟩, "b"),
     (⟨"p2", "ajuste", .int 1, none⟩, "c")]
    ⟨[⟨"p1", 0, none⟩, ⟨"p2", 7, none⟩], []⟩ "p1" ⟨"p1", 0, none⟩
    (by decide) (by decide)

end Estoque
